import Mathlib

/-!
Verification of the Financial Calculation Engine of the AIvest repository
(`src/main.py`, class `FinancialCalculator`).

The engine's pure numeric functions are embedded shallowly: Python floats
become exact rationals `ℚ` (reals `ℝ` where the source takes irrational
roots), dicts become structures or association lists, and loops become
structural recursion mirroring the source's control flow.
-/

namespace AIvest

/-! ## Progressive income tax (`FinancialCalculator.calculate_income_tax`) -/

/-- One row of the slab breakdown produced by the tax walk.
`lo`/`hi` are the Python dict's `from`/`to` fields (`hi = none` is the
`float('inf')` top slab), `rate` is stored as a percentage (`rate * 100`
in the source), `amount` the taxed portion and `tax` the tax on the slab. -/
structure SlabEntry where
  lo : ℚ
  hi : Option ℚ
  rate : ℚ
  amount : ℚ
  tax : ℚ
  deriving Repr, DecidableEq

/-- The slab-walking loop of `calculate_income_tax`: for each slab
`(limit, rate)`, if taxable income `t` still exceeds `prev` (the previous
limit), tax `min t limit - prev` at `rate`, record a breakdown entry and
move `prev` to `limit`.  A `none` limit is `float('inf')`: the taxed
portion is `t - prev` and every later slab is skipped (the loop condition
`t > inf` can never hold afterwards).  Returns (accumulated base tax,
breakdown entries). -/
def taxWalk (t : ℚ) : ℚ → List (Option ℚ × ℚ) → ℚ × List SlabEntry
  | _, [] => (0, [])
  | prev, (some l, r) :: rest =>
    if prev < t then
      let amt := min t l - prev
      let res := taxWalk t l rest
      (amt * r + res.1, ⟨prev, some l, r * 100, amt, amt * r⟩ :: res.2)
    else (0, [])
  | prev, (none, r) :: _ =>
    if prev < t then
      let amt := t - prev
      (amt * r, [⟨prev, none, r * 100, amt, amt * r⟩])
    else (0, [])

/-- The `'new'` regime slab table of `calculate_income_tax`. -/
def newSlabs : List (Option ℚ × ℚ) :=
  [(some 250000, 0), (some 500000, 5/100), (some 750000, 10/100),
   (some 1000000, 15/100), (some 1250000, 20/100), (some 1500000, 25/100),
   (none, 30/100)]

/-- The `'old'` regime slab table of `calculate_income_tax`. -/
def oldSlabs : List (Option ℚ × ℚ) :=
  [(some 250000, 0), (some 500000, 5/100), (some 1000000, 20/100), (none, 30/100)]

/-- Result record of `calculate_income_tax`. -/
structure TaxResult where
  total_tax : ℚ
  base_tax : ℚ
  cess : ℚ
  effective_rate : ℚ
  slabs : List SlabEntry
  taxable_income : ℚ
  deriving Repr

/-- `FinancialCalculator.calculate_income_tax(income, regime, deductions)`. -/
def calculate_income_tax (income : ℚ) (regime : String) (deductions : ℚ) : TaxResult :=
  let taxable_income := max (income - deductions) 0
  let slabs := if regime = "new" then newSlabs else oldSlabs
  let res := taxWalk taxable_income 0 slabs
  let cess := res.1 * (4/100)
  let total_tax := res.1 + cess
  { total_tax := total_tax
    base_tax := res.1
    cess := cess
    effective_rate := if 0 < income then total_tax / income * 100 else 0
    slabs := res.2
    taxable_income := taxable_income }

/-- Well-formedness of a slab table relative to a starting limit: limits
ascend and a `none` (infinite) slab is eventually reached. -/
def slabsTopped : ℚ → List (Option ℚ × ℚ) → Bool
  | _, [] => false
  | prev, (some l, _) :: rest => decide (prev ≤ l) && slabsTopped l rest
  | _, (none, _) :: _ => true

/-- Limits ascend and all rates are nonnegative. -/
def slabsOk : ℚ → List (Option ℚ × ℚ) → Bool
  | _, [] => true
  | prev, (some l, r) :: rest => decide (prev ≤ l) && decide (0 ≤ r) && slabsOk l rest
  | _, (none, r) :: _ => decide (0 ≤ r)

/-- The slab breakdown is contiguous starting from `p`: each entry's `lo`
equals the previous entry's `hi`, and an infinite entry is last. -/
def entriesChain : ℚ → List SlabEntry → Prop
  | _, [] => True
  | p, e :: rest =>
    e.lo = p ∧ match e.hi with
      | some h => entriesChain h rest
      | none => rest = []

/-! ## Consumption tax (`FinancialCalculator.calculate_gst`) -/

/-- Result record of `calculate_gst`. -/
structure GstResult where
  base_price : ℚ
  gst_rate : ℚ
  gst_amount : ℚ
  total : ℚ
  category : String
  deriving Repr, DecidableEq

/-- The `rates.get(category, 0.12)` lookup of `calculate_gst`: four fixed
category rates, defaulting to the `'Standard'` rate `0.12`. -/
def gstRate (category : String) : ℚ :=
  if category = "Essential" then 5/100
  else if category = "Standard" then 12/100
  else if category = "Luxury" then 18/100
  else if category = "Special" then 28/100
  else 12/100

/-- `FinancialCalculator.calculate_gst(amount, category)`.  As in the
source, `gst_rate` is stored as a percentage. -/
def calculate_gst (amount : ℚ) (category : String) : GstResult :=
  let rate := gstRate category
  let gst_amount := amount * rate
  { base_price := amount
    gst_rate := rate * 100
    gst_amount := gst_amount
    total := amount + gst_amount
    category := category }

/-! ## Financial health score (`FinancialCalculator.calculate_financial_health`) -/

/-- One component of the health score: the raw ratio (`ratioVal`, the
source dict's `ratio` key), the weighted score, and the declared `ideal`. -/
structure HealthComponent where
  ratioVal : ℚ
  score : ℚ
  ideal : ℚ
  deriving Repr, DecidableEq

/-- The five components of the health score. -/
structure HealthComponents where
  savings : HealthComponent
  investments : HealthComponent
  debt : HealthComponent
  insurance : HealthComponent
  expenses : HealthComponent
  deriving Repr, DecidableEq

/-- Result record of `calculate_financial_health`. -/
structure HealthResult where
  total_score : ℚ
  components : HealthComponents
  deriving Repr, DecidableEq

/-- `FinancialCalculator.calculate_financial_health(income, expenses,
savings, investments, liabilities, insurance_cover, age)`.  Every division
by income is guarded by `if income > 0`, exactly as in the source. -/
def calculate_financial_health (income expenses savings investments liabilities
    insurance_cover age : ℚ) : HealthResult :=
  let savingsRat := if 0 < income then savings / income else 0
  let savingsScore := min (savingsRat / (2/10)) 1 * 25
  let investmentRat := if 0 < income then investments / (income * max (age - 25) 5) else 0
  let investmentScore := min (investmentRat / 2) 1 * 25
  let debtRat := if 0 < income then liabilities / (income * (5/10)) else 0
  let debtScore := (1 - min debtRat 1) * 20
  let insuranceRat := if 0 < income then insurance_cover / (income * 10) else 0
  let insuranceScore := min insuranceRat 1 * 15
  let expenseRat := if 0 < income then expenses / income else 0
  let excessExpense := max (expenseRat - 6/10) 0
  let expenseScore := (1 - min (excessExpense / (4/10)) 1) * 15
  let total := savingsScore + investmentScore + debtScore + insuranceScore + expenseScore
  { total_score := min (max total 0) 100
    components :=
      { savings := ⟨savingsRat, savingsScore, 2/10⟩
        investments := ⟨investmentRat, investmentScore, 2⟩
        debt := ⟨debtRat, debtScore, 1⟩
        insurance := ⟨insuranceRat, insuranceScore, 1⟩
        expenses := ⟨expenseRat, expenseScore, 6/10⟩ } }

/-! ## Opportunity cost (`FinancialCalculator.calculate_opportunity_cost`) -/

/-- One row of the opportunity-cost yearly breakdown. -/
structure OppRow where
  year : ℕ
  opportunity_cost : ℚ
  deriving Repr, DecidableEq

/-- Result record of `calculate_opportunity_cost`. -/
structure OppResult where
  total : ℚ
  yearly : List OppRow
  deriving Repr, DecidableEq

/-- `FinancialCalculator.calculate_opportunity_cost(amount, years,
alternative_return)`: for each year `1..years` the loop recomputes
`total = amount * ((1 + rate) ^ year - 1)` from the base amount (not a
running compound), records it, and returns the last value as `total`
(`0`, the initial value, when the loop never runs). -/
def calculate_opportunity_cost (amount : ℚ) (years : ℕ) (alternative_return : ℚ) :
    OppResult :=
  let yearly := (List.range years).map fun i =>
    { year := i + 1
      opportunity_cost := amount * ((1 + alternative_return) ^ (i + 1) - 1) : OppRow }
  { total := match yearly.getLast? with
      | some row => row.opportunity_cost
      | none => 0
    yearly := yearly }

/-! ## Investment growth (`FinancialCalculator.calculate_investment_growth`)

The SIP monthly factor `(1 + rate) ** (1 / 12)` is irrational, so this
function is embedded over `ℝ` (inputs stay rational). -/

/-- One row of the growth yearly breakdown. -/
structure YearRow where
  year : ℕ
  nominal : ℝ
  real : ℝ
  growth : ℝ

/-- Result record of `calculate_investment_growth`. -/
structure GrowthResult where
  nominal : ℝ
  real : ℝ
  yearly : List YearRow
  cagr : ℝ

/-- One month of the SIP inner loop: `nominal += principal` then
`nominal *= m` where `m` is the monthly factor. -/
noncomputable def monthStep (p m x : ℝ) : ℝ := (x + p) * m

/-- The monthly factor `(1 + rate) ** (1 / 12)` of the SIP branch. -/
noncomputable def mFactor (rate : ℚ) : ℝ := ((1 : ℝ) + (rate : ℚ)) ^ ((1 : ℝ) / 12)

/-- The SIP (`else`) branch's year loop: `n` remaining years, `y` the
current year index, `nom` the running nominal total.  Each year runs the
inner 12-month loop, then records nominal, real (deflated by
`(1+inflation)^year`) and growth relative to cumulative contributions
`principal * 12 * year`. -/
noncomputable def sipRowsAux (p m infl : ℝ) : ℕ → ℕ → ℝ → List YearRow
  | 0, _, _ => []
  | Nat.succ n, y, nom =>
    let nom' := (monthStep p m)^[12] nom
    { year := y
      nominal := nom'
      real := nom' / (1 + infl) ^ y
      growth := (nom' / (p * 12 * (y : ℝ)) - 1) * 100 } :: sipRowsAux p m infl n (y + 1) nom'

/-- The lumpsum branch's year loop: each year `nominal *= (1 + rate)`,
real deflates by `(1+inflation)^year`, growth is relative to the fixed
principal. -/
noncomputable def lumpRowsAux (p r infl : ℝ) : ℕ → ℕ → ℝ → List YearRow
  | 0, _, _ => []
  | Nat.succ n, y, nom =>
    let nom' := nom * (1 + r)
    { year := y
      nominal := nom'
      real := nom' / (1 + infl) ^ y
      growth := (nom' - p) / p * 100 } :: lumpRowsAux p r infl n (y + 1) nom'

/-- `FinancialCalculator.calculate_investment_growth(principal, years,
rate, mode, inflation)`.  Any mode other than `'lumpsum'` takes the SIP
branch, as in the source's `else`. -/
noncomputable def calculate_investment_growth (principal : ℚ) (years : ℕ) (rate : ℚ)
    (mode : String) (inflation : ℚ) : GrowthResult :=
  let p : ℝ := (principal : ℚ)
  let yearly := if mode = "lumpsum" then lumpRowsAux p (rate : ℚ) (inflation : ℚ) years 1 p
    else sipRowsAux p (mFactor rate) (inflation : ℚ) years 1 0
  let finalNominal := match yearly.getLast? with
    | some row => row.nominal
    | none => p
  let finalReal := match yearly.getLast? with
    | some row => row.real
    | none => p
  { nominal := finalNominal
    real := finalReal
    yearly := yearly
    cagr := if 0 < years then ((finalNominal / p) ^ ((1 : ℝ) / (years : ℝ)) - 1) * 100 else 0 }

/-! ## Budget optimizer (`FinancialCalculator.optimize_budget`)

The source builds a PuLP linear program, calls the external solver
(`prob.solve()`), and returns `{var.name: var.varValue}` without ever
inspecting `prob.status`.  The shallow embedding keeps the LP's content
(variable bounds, constraints, objective) as explicit predicates over an
assignment `x : String → ℚ`, and models the external solver's output as a
parameter `sol`: the function's returned mapping is exactly
`[(cat, sol cat)]` over the spending categories, whatever `sol` is. -/

/-- One value of the `spending_data` dict: `amount`, `happiness`,
`essential`. -/
structure CatData where
  amount : ℚ
  happiness : ℚ
  essential : Bool
  deriving Repr, DecidableEq

/-- Lower variable-bound factor: `0.7 if risk_appetite > 0.5 else 0.9`. -/
def lowFactor (risk : ℚ) : ℚ := if 1/2 < risk then 7/10 else 9/10

/-- Upper variable-bound factor: `1.3 if risk_appetite > 0.5 else 1.1`. -/
def upFactor (risk : ℚ) : ℚ := if 1/2 < risk then 13/10 else 11/10

/-- The essential-keyword set `['rent', 'utilities']` tested against
`cat.lower()`. -/
def essentialNames : List String := ["rent", "utilities"]

/-- Python's `str.lower()` on category names: lower-case each character
(category names are ASCII). -/
def strLower (s : String) : String := ⟨s.data.map Char.toLower⟩

/-- The constraint set of the LP built by `optimize_budget`: per-category
variable bounds, total spending at most `income - min_savings`, total
spending at least `0.4 * income`, and a `0.9 * amount` floor for
categories whose lower-cased name is an essential keyword. -/
def Feasible (income min_savings risk : ℚ) (spending : List (String × CatData))
    (x : String → ℚ) : Prop :=
  (∀ cd ∈ spending, cd.2.amount * lowFactor risk ≤ x cd.1 ∧
      x cd.1 ≤ cd.2.amount * upFactor risk) ∧
  (spending.map fun cd => x cd.1).sum ≤ income - min_savings ∧
  income * (4/10) ≤ (spending.map fun cd => x cd.1).sum ∧
  (∀ cd ∈ spending, strLower cd.1 ∈ essentialNames → cd.2.amount * (9/10) ≤ x cd.1)

instance (income min_savings risk : ℚ) (spending : List (String × CatData))
    (x : String → ℚ) : Decidable (Feasible income min_savings risk spending x) := by
  unfold Feasible; infer_instance

/-- The LP objective of `optimize_budget`: the sum over categories of
`(happiness / amount) * x * risk + (min_savings / income) * (1 - risk)`. -/
def objectiveValue (income min_savings risk : ℚ) (spending : List (String × CatData))
    (x : String → ℚ) : ℚ :=
  (spending.map fun cd =>
    cd.2.happiness / cd.2.amount * x cd.1 * risk + min_savings / income * (1 - risk)).sum

/-- `FinancialCalculator.optimize_budget(income, spending_data,
min_savings, risk_appetite)` given the variable values `sol` left by the
external solver: it returns `{var.name: var.varValue}` unconditionally —
there is no branch on the solve status. -/
def optimize_budget (income : ℚ) (spending : List (String × CatData))
    (min_savings risk : ℚ) (sol : String → ℚ) : List (String × ℚ) :=
  spending.map fun cd => (cd.1, sol cd.1)

/-- The default `spending_data` of `init_session_state`. -/
def defaultSpending : List (String × CatData) :=
  [("Rent", ⟨15000, 6, true⟩), ("Food", ⟨8000, 8, true⟩),
   ("Transport", ⟨3000, 5, true⟩), ("Entertainment", ⟨5000, 7, false⟩),
   ("Shopping", ⟨4000, 4, false⟩)]

/-- A concrete solver assignment used as a witness: keep every category
at its current amount. -/
def defaultSol (c : String) : ℚ :=
  if c = "Rent" then 15000
  else if c = "Food" then 8000
  else if c = "Transport" then 3000
  else if c = "Entertainment" then 5000
  else 4000

/-! ## Helper lemmas -/

theorem taxWalk_of_le (t prev : ℚ) (slabs : List (Option ℚ × ℚ)) (h : t ≤ prev) :
    taxWalk t prev slabs = (0, []) := by
  cases slabs with
  | nil => rfl
  | cons hd rest =>
    obtain ⟨lim, r⟩ := hd
    cases lim with
    | some l => simp [taxWalk, not_lt.mpr h]
    | none => simp [taxWalk, not_lt.mpr h]

theorem taxWalk_amount_sum (slabs : List (Option ℚ × ℚ)) :
    ∀ prev t, slabsTopped prev slabs = true → prev ≤ t →
      ((taxWalk t prev slabs).2.map SlabEntry.amount).sum = t - prev := by
  induction slabs with
  | nil => intro prev t hw _; simp [slabsTopped] at hw
  | cons hd rest ih =>
    intro prev t hw hpt
    obtain ⟨lim, r⟩ := hd
    cases lim with
    | some l =>
      simp only [slabsTopped, Bool.and_eq_true, decide_eq_true_eq] at hw
      obtain ⟨hpl, hrest⟩ := hw
      by_cases hlt : prev < t
      · rcases le_or_lt t l with htl | hlt2
        · have hz : taxWalk t l rest = (0, []) := taxWalk_of_le t l rest htl
          simp [taxWalk, hlt, hz, min_eq_left htl]
        · have hsum := ih l t hrest (le_of_lt hlt2)
          simp only [taxWalk, hlt, if_true]
          simp [hsum, min_eq_right (le_of_lt hlt2)]
      · have ht : t = prev := le_antisymm (not_lt.mp hlt) hpt
        simp [taxWalk, hlt, ht]
    | none =>
      by_cases hlt : prev < t
      · simp [taxWalk, hlt]
      · have ht : t = prev := le_antisymm (not_lt.mp hlt) hpt
        simp [taxWalk, hlt, ht]

theorem taxWalk_chain (slabs : List (Option ℚ × ℚ)) :
    ∀ prev t, entriesChain prev (taxWalk t prev slabs).2 := by
  induction slabs with
  | nil => intro prev t; simp [taxWalk, entriesChain]
  | cons hd rest ih =>
    intro prev t
    obtain ⟨lim, r⟩ := hd
    cases lim with
    | some l =>
      by_cases hlt : prev < t
      · simp only [taxWalk, hlt, if_true]
        exact ⟨rfl, ih l t⟩
      · simp [taxWalk, hlt, entriesChain]
    | none =>
      by_cases hlt : prev < t
      · simp only [taxWalk, hlt, if_true]
        exact ⟨rfl, rfl⟩
      · simp [taxWalk, hlt, entriesChain]

theorem taxWalk_reached (slabs : List (Option ℚ × ℚ)) :
    ∀ prev t e, e ∈ (taxWalk t prev slabs).2 → e.lo < t := by
  induction slabs with
  | nil => intro prev t e he; simp [taxWalk] at he
  | cons hd rest ih =>
    intro prev t e he
    obtain ⟨lim, r⟩ := hd
    cases lim with
    | some l =>
      by_cases hlt : prev < t
      · simp only [taxWalk, hlt, if_true, List.mem_cons] at he
        rcases he with he | he
        · rw [he]; exact hlt
        · exact ih l t e he
      · simp [taxWalk, hlt] at he
    | none =>
      by_cases hlt : prev < t
      · simp only [taxWalk, hlt, if_true, List.mem_singleton] at he
        rw [he]; exact hlt
      · simp [taxWalk, hlt] at he

theorem taxWalk_amount_nonneg (slabs : List (Option ℚ × ℚ)) :
    ∀ prev t, slabsTopped prev slabs = true → ∀ e, e ∈ (taxWalk t prev slabs).2 → 0 ≤ e.amount := by
  induction slabs with
  | nil => intro prev t hw; simp [slabsTopped] at hw
  | cons hd rest ih =>
    intro prev t hw e he
    obtain ⟨lim, r⟩ := hd
    cases lim with
    | some l =>
      simp only [slabsTopped, Bool.and_eq_true, decide_eq_true_eq] at hw
      obtain ⟨hpl, hrest⟩ := hw
      by_cases hlt : prev < t
      · simp only [taxWalk, hlt, if_true, List.mem_cons] at he
        rcases he with he | he
        · rw [he]
          have : prev ≤ min t l := le_min (le_of_lt hlt) hpl
          simpa using sub_nonneg.mpr this
        · exact ih l t hrest e he
      · simp [taxWalk, hlt] at he
    | none =>
      by_cases hlt : prev < t
      · simp only [taxWalk, hlt, if_true, List.mem_singleton] at he
        rw [he]
        simpa using sub_nonneg.mpr (le_of_lt hlt)
      · simp [taxWalk, hlt] at he

theorem taxWalk_fst_nonneg (slabs : List (Option ℚ × ℚ)) :
    ∀ prev t, slabsOk prev slabs = true → 0 ≤ (taxWalk t prev slabs).1 := by
  induction slabs with
  | nil => intro prev t _; simp [taxWalk]
  | cons hd rest ih =>
    intro prev t hw
    obtain ⟨lim, r⟩ := hd
    cases lim with
    | some l =>
      simp only [slabsOk, Bool.and_eq_true, decide_eq_true_eq] at hw
      obtain ⟨⟨hpl, hr⟩, hrest⟩ := hw
      by_cases hlt : prev < t
      · simp only [taxWalk, hlt, if_true]
        have h1 : 0 ≤ min t l - prev := sub_nonneg.mpr (le_min (le_of_lt hlt) hpl)
        have h2 := ih l t hrest
        positivity
      · simp [taxWalk, hlt]
    | none =>
      simp only [slabsOk, decide_eq_true_eq] at hw
      by_cases hlt : prev < t
      · simp only [taxWalk, hlt, if_true]
        have h1 : 0 ≤ t - prev := sub_nonneg.mpr (le_of_lt hlt)
        positivity
      · simp [taxWalk, hlt]

theorem taxWalk_fst_mono (slabs : List (Option ℚ × ℚ)) :
    ∀ prev t1 t2, slabsOk prev slabs = true → t1 ≤ t2 →
      (taxWalk t1 prev slabs).1 ≤ (taxWalk t2 prev slabs).1 := by
  induction slabs with
  | nil => intro prev t1 t2 _ _; simp [taxWalk]
  | cons hd rest ih =>
    intro prev t1 t2 hw h12
    obtain ⟨lim, r⟩ := hd
    cases lim with
    | some l =>
      have hw' := hw
      simp only [slabsOk, Bool.and_eq_true, decide_eq_true_eq] at hw'
      obtain ⟨⟨hpl, hr⟩, hrest⟩ := hw'
      by_cases h1 : prev < t1
      · have h2 : prev < t2 := lt_of_lt_of_le h1 h12
        simp only [taxWalk, h1, h2, if_true]
        have hmin : min t1 l ≤ min t2 l := min_le_min h12 le_rfl
        have hmul : (min t1 l - prev) * r ≤ (min t2 l - prev) * r :=
          mul_le_mul_of_nonneg_right (by linarith) hr
        have htail := ih l t1 t2 hrest h12
        linarith
      · by_cases h2 : prev < t2
        · simp only [taxWalk, h1, h2, if_true, if_false]
          have ha : 0 ≤ min t2 l - prev := sub_nonneg.mpr (le_min (le_of_lt h2) hpl)
          have hb := taxWalk_fst_nonneg rest l t2 hrest
          have : 0 ≤ (min t2 l - prev) * r := mul_nonneg ha hr
          linarith
        · simp [taxWalk, h1, h2]
    | none =>
      simp only [slabsOk, decide_eq_true_eq] at hw
      by_cases h1 : prev < t1
      · have h2 : prev < t2 := lt_of_lt_of_le h1 h12
        simp only [taxWalk, h1, h2, if_true]
        exact mul_le_mul_of_nonneg_right (by linarith) hw
      · by_cases h2 : prev < t2
        · simp only [taxWalk, h1, h2, if_true, if_false]
          have : 0 ≤ (t2 - prev) * r := mul_nonneg (sub_nonneg.mpr (le_of_lt h2)) hw
          linarith
        · simp [taxWalk, h1, h2]

/-! ## Claim theorems -/

/-- C5: for every `gross_income ≥ 0`, `deductions ≥ 0` and regime, the
slab breakdown of `calculate_income_tax` is an ordered, contiguous,
non-overlapping partition starting at `0` covering `[0, taxable_income]`
with `taxable_income = max (gross_income - deductions) 0`: the per-slab
taxed amounts are nonnegative and sum exactly to `taxable_income`, and
the list only contains entries for slabs that taxable income actually
reaches (`lo < taxable_income` for every entry). -/
theorem tax_slab_partition (income deductions : ℚ) (regime : String)
    (hinc : 0 ≤ income) (hded : 0 ≤ deductions) :
    entriesChain 0 (calculate_income_tax income regime deductions).slabs ∧
    ((calculate_income_tax income regime deductions).slabs.map SlabEntry.amount).sum =
      (calculate_income_tax income regime deductions).taxable_income ∧
    (∀ e ∈ (calculate_income_tax income regime deductions).slabs, 0 ≤ e.amount) ∧
    (∀ e ∈ (calculate_income_tax income regime deductions).slabs,
      e.lo < (calculate_income_tax income regime deductions).taxable_income) := by
  have ht : (0 : ℚ) ≤ max (income - deductions) 0 := le_max_right _ 0
  have htop : slabsTopped 0 (if regime = "new" then newSlabs else oldSlabs) = true := by
    by_cases h : regime = "new" <;> simp [h, newSlabs, oldSlabs, slabsTopped] <;> norm_num
  refine ⟨?_, ?_, ?_, ?_⟩
  · exact taxWalk_chain _ 0 _
  · have := taxWalk_amount_sum (if regime = "new" then newSlabs else oldSlabs)
      0 (max (income - deductions) 0) htop ht
    simpa [calculate_income_tax] using this
  · intro e he
    exact taxWalk_amount_nonneg _ 0 _ htop e he
  · intro e he
    exact taxWalk_reached _ 0 _ e he

/-- Witness for C5 at `income = 800000`, `deductions = 50000`,
regime `"new"`. -/
theorem tax_slab_partition_witness :
    (0 : ℚ) ≤ 800000 ∧ (0 : ℚ) ≤ 50000 ∧
    (entriesChain 0 (calculate_income_tax 800000 "new" 50000).slabs ∧
      ((calculate_income_tax 800000 "new" 50000).slabs.map SlabEntry.amount).sum =
        (calculate_income_tax 800000 "new" 50000).taxable_income ∧
      (∀ e ∈ (calculate_income_tax 800000 "new" 50000).slabs, 0 ≤ e.amount) ∧
      (∀ e ∈ (calculate_income_tax 800000 "new" 50000).slabs,
        e.lo < (calculate_income_tax 800000 "new" 50000).taxable_income)) :=
  ⟨by norm_num, by norm_num,
    tax_slab_partition 800000 50000 "new" (by norm_num) (by norm_num)⟩

/-- C7: for every `gross_income ≥ 0`, `deductions ≥ 0` and regime,
`calculate_income_tax` returns `total_tax = base_tax * 1.04` exactly,
and at `gross_income = 0` it returns `total_tax = 0` and
`effective_rate = 0`. -/
theorem tax_cess_and_zero (income deductions : ℚ) (regime : String)
    (hinc : 0 ≤ income) (hded : 0 ≤ deductions) :
    (calculate_income_tax income regime deductions).total_tax =
      (calculate_income_tax income regime deductions).base_tax * (104/100) ∧
    (income = 0 →
      (calculate_income_tax income regime deductions).total_tax = 0 ∧
      (calculate_income_tax income regime deductions).effective_rate = 0) := by
  constructor
  · simp only [calculate_income_tax]
    ring
  · intro h0
    subst h0
    have htax : max ((0 : ℚ) - deductions) 0 = 0 := by
      apply max_eq_right
      linarith
    have hwalk : taxWalk (max ((0 : ℚ) - deductions) 0) 0
        (if regime = "new" then newSlabs else oldSlabs) = (0, []) := by
      rw [htax]
      exact taxWalk_of_le 0 0 _ le_rfl
    constructor
    · simp only [calculate_income_tax, hwalk]
      norm_num
    · simp only [calculate_income_tax, hwalk]
      norm_num

/-- Witness for C7 at `income = 0`, `deductions = 150000`, regime `"old"`. -/
theorem tax_cess_and_zero_witness :
    (0 : ℚ) ≤ 0 ∧ (0 : ℚ) ≤ 150000 ∧
    ((calculate_income_tax 0 "old" 150000).total_tax =
        (calculate_income_tax 0 "old" 150000).base_tax * (104/100) ∧
      ((0 : ℚ) = 0 →
        (calculate_income_tax 0 "old" 150000).total_tax = 0 ∧
        (calculate_income_tax 0 "old" 150000).effective_rate = 0)) :=
  ⟨le_rfl, by norm_num,
    tax_cess_and_zero 0 150000 "old" le_rfl (by norm_num)⟩

/-- C10: for a fixed regime and fixed `deductions ≥ 0`,
`calculate_income_tax` is monotone in income: `0 ≤ income1 ≤ income2`
implies `base_tax income1 ≤ base_tax income2` and
`total_tax income1 ≤ total_tax income2`. -/
theorem tax_monotone (income1 income2 deductions : ℚ) (regime : String)
    (h0 : 0 ≤ income1) (h12 : income1 ≤ income2) (hded : 0 ≤ deductions) :
    (calculate_income_tax income1 regime deductions).base_tax ≤
      (calculate_income_tax income2 regime deductions).base_tax ∧
    (calculate_income_tax income1 regime deductions).total_tax ≤
      (calculate_income_tax income2 regime deductions).total_tax := by
  have hok : slabsOk 0 (if regime = "new" then newSlabs else oldSlabs) = true := by
    by_cases h : regime = "new" <;> simp [h, newSlabs, oldSlabs, slabsOk] <;> norm_num
  have ht12 : max (income1 - deductions) 0 ≤ max (income2 - deductions) 0 :=
    max_le_max (by linarith) le_rfl
  have hbase := taxWalk_fst_mono (if regime = "new" then newSlabs else oldSlabs)
    0 (max (income1 - deductions) 0) (max (income2 - deductions) 0) hok ht12
  constructor
  · simpa [calculate_income_tax] using hbase
  · simp only [calculate_income_tax]
    nlinarith [hbase]

/-- Witness for C10 at `income1 = 300000`, `income2 = 1000000`,
`deductions = 0`, regime `"new"`. -/
theorem tax_monotone_witness :
    (0 : ℚ) ≤ 300000 ∧ (300000 : ℚ) ≤ 1000000 ∧ (0 : ℚ) ≤ 0 ∧
    ((calculate_income_tax 300000 "new" 0).base_tax ≤
        (calculate_income_tax 1000000 "new" 0).base_tax ∧
      (calculate_income_tax 300000 "new" 0).total_tax ≤
        (calculate_income_tax 1000000 "new" 0).total_tax) :=
  ⟨by norm_num, by norm_num, le_rfl,
    tax_monotone 300000 1000000 0 "new" (by norm_num) (by norm_num) le_rfl⟩

/-- C8: for every `amount ≥ 0` and category, `calculate_gst` satisfies
`gst_amount = base_price * rate` and `total = base_price + gst_amount`,
the four known categories have their fixed table rates, and an unknown
category gets the same rate as `"Standard"`. -/
theorem gst_spec (amount : ℚ) (category : String) (hamt : 0 ≤ amount) :
    (calculate_gst amount category).gst_amount =
      (calculate_gst amount category).base_price * gstRate category ∧
    (calculate_gst amount category).total =
      (calculate_gst amount category).base_price + (calculate_gst amount category).gst_amount ∧
    gstRate "Essential" = 5/100 ∧ gstRate "Standard" = 12/100 ∧
    gstRate "Luxury" = 18/100 ∧ gstRate "Special" = 28/100 ∧
    (category ∉ ["Essential", "Standard", "Luxury", "Special"] →
      gstRate category = gstRate "Standard") := by
  refine ⟨rfl, rfl, rfl, rfl, rfl, rfl, ?_⟩
  intro hmem
  simp only [List.mem_cons, List.not_mem_nil, or_false, not_or] at hmem
  obtain ⟨h1, h2, h3, h4⟩ := hmem
  rw [show gstRate "Standard" = 12/100 from rfl]
  simp [gstRate, h1, h2, h3, h4]

/-- Witness for C8 at `amount = 100`, `category = "Food"`. -/
theorem gst_spec_witness :
    (0 : ℚ) ≤ 100 ∧
    ((calculate_gst 100 "Food").gst_amount =
        (calculate_gst 100 "Food").base_price * gstRate "Food" ∧
      (calculate_gst 100 "Food").total =
        (calculate_gst 100 "Food").base_price + (calculate_gst 100 "Food").gst_amount ∧
      gstRate "Essential" = 5/100 ∧ gstRate "Standard" = 12/100 ∧
      gstRate "Luxury" = 18/100 ∧ gstRate "Special" = 28/100 ∧
      ("Food" ∉ ["Essential", "Standard", "Luxury", "Special"] →
        gstRate "Food" = gstRate "Standard")) :=
  ⟨by norm_num, gst_spec 100 "Food" (by norm_num)⟩

/-- C3 (amended): on every input where the five component ratios equal
their declared ideal targets (savings `0.2`, investments `2`, debt `1.0`,
insurance `1.0`, expenses `0.6`), `calculate_financial_health` returns
`total_score = 80` (not 100: the debt component's score
`(1 - min ratio 1) * 20` is `0` at its declared ideal ratio `1.0`);
`total_score` equals the sum of the five component scores and each
component score is bounded by its weight (25/25/20/15/15). -/
theorem health_ideal_ratios (income expenses savings investments liabilities
    insurance_cover age : ℚ)
    (h1 : (calculate_financial_health income expenses savings investments liabilities
      insurance_cover age).components.savings.ratioVal = 2/10)
    (h2 : (calculate_financial_health income expenses savings investments liabilities
      insurance_cover age).components.investments.ratioVal = 2)
    (h3 : (calculate_financial_health income expenses savings investments liabilities
      insurance_cover age).components.debt.ratioVal = 1)
    (h4 : (calculate_financial_health income expenses savings investments liabilities
      insurance_cover age).components.insurance.ratioVal = 1)
    (h5 : (calculate_financial_health income expenses savings investments liabilities
      insurance_cover age).components.expenses.ratioVal = 6/10) :
    (calculate_financial_health income expenses savings investments liabilities
      insurance_cover age).total_score = 80 ∧
    (calculate_financial_health income expenses savings investments liabilities
        insurance_cover age).total_score =
      (calculate_financial_health income expenses savings investments liabilities
        insurance_cover age).components.savings.score +
      (calculate_financial_health income expenses savings investments liabilities
        insurance_cover age).components.investments.score +
      (calculate_financial_health income expenses savings investments liabilities
        insurance_cover age).components.debt.score +
      (calculate_financial_health income expenses savings investments liabilities
        insurance_cover age).components.insurance.score +
      (calculate_financial_health income expenses savings investments liabilities
        insurance_cover age).components.expenses.score ∧
    (calculate_financial_health income expenses savings investments liabilities
      insurance_cover age).components.savings.score ≤ 25 ∧
    (calculate_financial_health income expenses savings investments liabilities
      insurance_cover age).components.investments.score ≤ 25 ∧
    (calculate_financial_health income expenses savings investments liabilities
      insurance_cover age).components.debt.score ≤ 20 ∧
    (calculate_financial_health income expenses savings investments liabilities
      insurance_cover age).components.insurance.score ≤ 15 ∧
    (calculate_financial_health income expenses savings investments liabilities
      insurance_cover age).components.expenses.score ≤ 15 := by
  simp only [calculate_financial_health] at h1 h2 h3 h4 h5 ⊢
  rw [h1, h2, h3, h4, h5]
  norm_num

/-- Witness for C3 (amended) at `income = 100000`, `expenses = 60000`,
`savings = 20000`, `investments = 2000000`, `liabilities = 50000`,
`insurance_cover = 1000000`, `age = 35`: all five ratios sit at their
ideals and the theorem applies. -/
theorem health_ideal_ratios_witness :
    (calculate_financial_health 100000 60000 20000 2000000 50000 1000000
      35).components.savings.ratioVal = 2/10 ∧
    (calculate_financial_health 100000 60000 20000 2000000 50000 1000000
      35).components.investments.ratioVal = 2 ∧
    (calculate_financial_health 100000 60000 20000 2000000 50000 1000000
      35).components.debt.ratioVal = 1 ∧
    (calculate_financial_health 100000 60000 20000 2000000 50000 1000000
      35).components.insurance.ratioVal = 1 ∧
    (calculate_financial_health 100000 60000 20000 2000000 50000 1000000
      35).components.expenses.ratioVal = 6/10 ∧
    (calculate_financial_health 100000 60000 20000 2000000 50000 1000000
      35).total_score = 80 :=
  have h1 : (calculate_financial_health 100000 60000 20000 2000000 50000 1000000
      35).components.savings.ratioVal = 2/10 := by
    norm_num [calculate_financial_health]
  have h2 : (calculate_financial_health 100000 60000 20000 2000000 50000 1000000
      35).components.investments.ratioVal = 2 := by
    norm_num [calculate_financial_health]
  have h3 : (calculate_financial_health 100000 60000 20000 2000000 50000 1000000
      35).components.debt.ratioVal = 1 := by
    norm_num [calculate_financial_health]
  have h4 : (calculate_financial_health 100000 60000 20000 2000000 50000 1000000
      35).components.insurance.ratioVal = 1 := by
    norm_num [calculate_financial_health]
  have h5 : (calculate_financial_health 100000 60000 20000 2000000 50000 1000000
      35).components.expenses.ratioVal = 6/10 := by
    norm_num [calculate_financial_health]
  ⟨h1, h2, h3, h4, h5,
    (health_ideal_ratios 100000 60000 20000 2000000 50000 1000000 35 h1 h2 h3 h4 h5).1⟩

/-- Counterexample to C3 as stated: at `income = 100000`,
`expenses = 60000`, `savings = 20000`, `investments = 2000000`,
`liabilities = 50000`, `insurance_cover = 1000000`, `age = 35` every
component ratio equals its declared ideal target, yet `total_score = 80`,
not 100. -/
theorem health_ideal_ratios_not_100 :
    (calculate_financial_health 100000 60000 20000 2000000 50000 1000000
      35).components.savings.ratioVal = 2/10 ∧
    (calculate_financial_health 100000 60000 20000 2000000 50000 1000000
      35).components.investments.ratioVal = 2 ∧
    (calculate_financial_health 100000 60000 20000 2000000 50000 1000000
      35).components.debt.ratioVal = 1 ∧
    (calculate_financial_health 100000 60000 20000 2000000 50000 1000000
      35).components.insurance.ratioVal = 1 ∧
    (calculate_financial_health 100000 60000 20000 2000000 50000 1000000
      35).components.expenses.ratioVal = 6/10 ∧
    (calculate_financial_health 100000 60000 20000 2000000 50000 1000000
      35).total_score = 80 ∧
    (calculate_financial_health 100000 60000 20000 2000000 50000 1000000
      35).total_score ≠ 100 := by
  norm_num [calculate_financial_health]

/-- C4 (amended): for `income = 0` and arbitrary other arguments,
`calculate_financial_health` is well-defined (the embedding is total, no
division is performed) and every income-dividing ratio resolves to `0`;
the savings, investment and insurance terms then contribute score `0`,
but the debt term contributes its full weight `20` and the expense term
`15`, so `total_score = 35`. -/
theorem health_zero_income (expenses savings investments liabilities
    insurance_cover age : ℚ) :
    (calculate_financial_health 0 expenses savings investments liabilities
      insurance_cover age).components.savings.ratioVal = 0 ∧
    (calculate_financial_health 0 expenses savings investments liabilities
      insurance_cover age).components.investments.ratioVal = 0 ∧
    (calculate_financial_health 0 expenses savings investments liabilities
      insurance_cover age).components.debt.ratioVal = 0 ∧
    (calculate_financial_health 0 expenses savings investments liabilities
      insurance_cover age).components.insurance.ratioVal = 0 ∧
    (calculate_financial_health 0 expenses savings investments liabilities
      insurance_cover age).components.expenses.ratioVal = 0 ∧
    (calculate_financial_health 0 expenses savings investments liabilities
      insurance_cover age).components.savings.score = 0 ∧
    (calculate_financial_health 0 expenses savings investments liabilities
      insurance_cover age).components.investments.score = 0 ∧
    (calculate_financial_health 0 expenses savings investments liabilities
      insurance_cover age).components.insurance.score = 0 ∧
    (calculate_financial_health 0 expenses savings investments liabilities
      insurance_cover age).components.debt.score = 20 ∧
    (calculate_financial_health 0 expenses savings investments liabilities
      insurance_cover age).components.expenses.score = 15 ∧
    (calculate_financial_health 0 expenses savings investments liabilities
      insurance_cover age).total_score = 35 := by
  norm_num [calculate_financial_health]

/-- Counterexample to C4 as stated: at income `0` (all other inputs `0`,
age `30`) the debt term, which guards its division by income, contributes
score `20` and the expense term `15`, so `total_score = 35 ≠ 0`. -/
theorem health_zero_income_counterexample :
    (calculate_financial_health 0 0 0 0 0 0 30).components.debt.score = 20 ∧
    (calculate_financial_health 0 0 0 0 0 0 30).components.expenses.score = 15 ∧
    (calculate_financial_health 0 0 0 0 0 0 30).total_score = 35 ∧
    (calculate_financial_health 0 0 0 0 0 0 30).total_score ≠ 0 := by
  norm_num [calculate_financial_health]

/-- C9: for every `amount ≥ 0`, `years ≥ 1` and rate, the yearly entry of
`calculate_opportunity_cost` for year `y` equals
`amount * ((1 + rate) ^ y - 1)` recomputed from the base amount; for every
positive rate the yearly sequence is monotonically non-decreasing; the
reported total equals the final year's value; and `amount = 1000`,
`years = 1`, `rate = 0.12` gives `total = 120`. -/
theorem opportunity_cost_spec (amount : ℚ) (years : ℕ) (rate : ℚ)
    (hamt : 0 ≤ amount) (hy : 1 ≤ years) :
    (∀ y, 1 ≤ y → y ≤ years →
      (calculate_opportunity_cost amount years rate).yearly.get? (y - 1) =
        some ⟨y, amount * ((1 + rate) ^ y - 1)⟩) ∧
    (0 < rate → (calculate_opportunity_cost amount years rate).yearly.Pairwise
      fun a b => a.opportunity_cost ≤ b.opportunity_cost) ∧
    (calculate_opportunity_cost amount years rate).total =
      amount * ((1 + rate) ^ years - 1) ∧
    (calculate_opportunity_cost 1000 1 (12/100)).total = 120 := by
  refine ⟨?_, ?_, ?_, ?_⟩
  · intro y hy1 hyy
    have hlt : y - 1 < years := by omega
    have hy' : y - 1 + 1 = y := by omega
    simp only [calculate_opportunity_cost, List.get?_map, List.get?_range hlt]
    simp [hy']
  · intro hr
    simp only [calculate_opportunity_cost]
    rw [List.pairwise_map]
    refine List.Pairwise.imp ?_ (List.pairwise_lt_range years)
    intro i j hij
    have h1r : (1 : ℚ) ≤ 1 + rate := by linarith
    have hpow : (1 + rate) ^ (i + 1) ≤ (1 + rate) ^ (j + 1) :=
      pow_le_pow_right h1r (by omega)
    exact mul_le_mul_of_nonneg_left (by linarith) hamt
  · obtain ⟨n, rfl⟩ : ∃ n, years = n + 1 := ⟨years - 1, by omega⟩
    simp [calculate_opportunity_cost, List.range_succ, List.getLast?_concat]
  · simp [calculate_opportunity_cost, List.range_succ]
    norm_num

/-- Witness for C9 at `amount = 500`, `years = 3`, `rate = 1/10`. -/
theorem opportunity_cost_spec_witness :
    (0 : ℚ) ≤ 500 ∧ 1 ≤ 3 ∧
    (calculate_opportunity_cost 500 3 (1/10)).total = 500 * ((1 + 1/10) ^ 3 - 1) :=
  ⟨by norm_num, by norm_num,
    (opportunity_cost_spec 500 3 (1/10) (by norm_num) (by norm_num)).2.2.1⟩

theorem sipRowsAux_get (p m infl : ℝ) :
    ∀ (n : ℕ) (i k : ℕ) (nom : ℝ), i < n →
      (sipRowsAux p m infl n k nom).get? i =
        some { year := k + i
               nominal := ((monthStep p m)^[12])^[i + 1] nom
               real := ((monthStep p m)^[12])^[i + 1] nom / (1 + infl) ^ (k + i)
               growth := (((monthStep p m)^[12])^[i + 1] nom /
                 (p * 12 * ((k + i : ℕ) : ℝ)) - 1) * 100 } := by
  intro n
  induction n with
  | zero => intro i k nom h; omega
  | succ n ih =>
    intro i k nom h
    cases i with
    | zero =>
      simp [sipRowsAux]
    | succ j =>
      have hj : j < n := by omega
      simp only [sipRowsAux, List.get?_cons_succ]
      rw [ih j (k + 1) ((monthStep p m)^[12] nom) hj]
      rw [← Function.iterate_succ_apply]
      have hk : k + 1 + j = k + (j + 1) := by omega
      rw [hk]

/-- C6: in SIP mode (`mode ≠ "lumpsum"`), with `principal > 0`,
`years ≥ 1`, any rate and any inflation, the yearly entry of
`calculate_investment_growth` for year `y` (`1 ≤ y ≤ years`) has
`nominal` equal to `12 * y` sequential steps of
(add `principal`, multiply by `(1 + rate) ^ (1/12)`) starting from `0`
(the direct recurrence), `real` equal to that nominal divided by
`(1 + inflation) ^ y`, and `growth` equal to
`(nominal / (principal * 12 * y) - 1) * 100`, the growth measured against
cumulative contributions-to-date. -/
theorem sip_recurrence (principal rate inflation : ℚ) (mode : String) (years y : ℕ)
    (hp : 0 < principal) (hm : mode ≠ "lumpsum") (hy1 : 1 ≤ y) (hyy : y ≤ years) :
    ∃ row : YearRow,
      (calculate_investment_growth principal years rate mode inflation).yearly.get?
        (y - 1) = some row ∧
      row.year = y ∧
      row.nominal = (monthStep (principal : ℝ) (mFactor rate))^[12 * y] 0 ∧
      row.real = row.nominal / (1 + (inflation : ℝ)) ^ y ∧
      row.growth = (row.nominal / ((principal : ℝ) * 12 * (y : ℝ)) - 1) * 100 := by
  have hlt : y - 1 < years := by omega
  have h1 : 1 + (y - 1) = y := by omega
  have h2 : y - 1 + 1 = y := by omega
  simp only [calculate_investment_growth, if_neg hm]
  rw [sipRowsAux_get (principal : ℝ) (mFactor rate) (inflation : ℝ) years (y - 1) 1 0 hlt]
  rw [h1, h2, Function.iterate_mul]
  exact ⟨_, rfl, rfl, rfl, rfl, rfl⟩

/-- Witness for C6 at `principal = 1000`, `rate = 0.12`,
`inflation = 0.06`, `mode = "sip"`, `years = 1`, `y = 1`. -/
theorem sip_recurrence_witness :
    (0 : ℚ) < 1000 ∧ "sip" ≠ "lumpsum" ∧ (1 : ℕ) ≤ 1 ∧
    ∃ row : YearRow,
      (calculate_investment_growth 1000 1 (12/100) "sip" (6/100)).yearly.get?
        (1 - 1) = some row ∧
      row.year = 1 ∧
      row.nominal = (monthStep ((1000 : ℚ) : ℝ) (mFactor (12/100)))^[12 * 1] 0 ∧
      row.real = row.nominal / (1 + ((6/100 : ℚ) : ℝ)) ^ 1 ∧
      row.growth = (row.nominal / (((1000 : ℚ) : ℝ) * 12 * ((1 : ℕ) : ℝ)) - 1) * 100 :=
  ⟨by norm_num, by decide, le_rfl,
    sip_recurrence 1000 (12/100) (6/100) "sip" 1 1 (by norm_num) (by decide) le_rfl le_rfl⟩

/-- C2: for every feasible instance, the allocation mapping returned by
`optimize_budget` (the external solver's values `sol`, which satisfy the
LP's constraint set `Feasible` whenever the instance is feasible and the
solve succeeds) gives every category whose lower-cased name is an
essential keyword at least 90% of its current amount, and the sum of all
returned allocations is at most `income - min_savings`. -/
theorem optimize_budget_feasible_bounds (income min_savings risk : ℚ)
    (spending : List (String × CatData)) (sol : String → ℚ)
    (hpos : ∀ cd ∈ spending, 0 < cd.2.amount)
    (hrisk : 0 ≤ risk ∧ risk ≤ 1)
    (hfeas : Feasible income min_savings risk spending sol) :
    (∀ cd ∈ spending,
      (cd.1, sol cd.1) ∈ optimize_budget income spending min_savings risk sol ∧
      (strLower cd.1 ∈ essentialNames → cd.2.amount * (9/10) ≤ sol cd.1)) ∧
    ((optimize_budget income spending min_savings risk sol).map Prod.snd).sum ≤
      income - min_savings := by
  obtain ⟨hbounds, hsum, hmin, hess⟩ := hfeas
  constructor
  · intro cd hcd
    exact ⟨List.mem_map.mpr ⟨cd, hcd, rfl⟩, hess cd hcd⟩
  · simpa [optimize_budget, List.map_map, Function.comp] using hsum

/-- Witness for C2: `income = 50000`, `min_savings = 5000`,
`risk = 0.5`, the default spending map, and the solver assignment keeping
every category at its current amount (which is feasible). -/
theorem optimize_budget_feasible_bounds_witness :
    (∀ cd ∈ defaultSpending, 0 < cd.2.amount) ∧
    ((0 : ℚ) ≤ 1/2 ∧ (1/2 : ℚ) ≤ 1) ∧
    Feasible 50000 5000 (1/2) defaultSpending defaultSol ∧
    ((optimize_budget 50000 defaultSpending 5000 (1/2) defaultSol).map Prod.snd).sum ≤
      50000 - 5000 :=
  have hpos : ∀ cd ∈ defaultSpending, 0 < cd.2.amount := by
    intro cd hcd
    fin_cases hcd <;> norm_num [defaultSpending]
  have hrisk : (0 : ℚ) ≤ 1/2 ∧ (1/2 : ℚ) ≤ 1 := by norm_num
  have hfeas : Feasible 50000 5000 (1/2) defaultSpending defaultSol := by
    refine ⟨?_, ?_, ?_, ?_⟩
    · intro cd hcd
      fin_cases hcd <;> simp [defaultSol, lowFactor, upFactor] <;> norm_num
    · simp [defaultSpending, defaultSol]
      norm_num
    · simp [defaultSpending, defaultSol]
      norm_num
    · intro cd hcd
      fin_cases hcd <;> intro hmem <;> simp [defaultSol] <;> norm_num
  ⟨hpos, hrisk, hfeas,
    (optimize_budget_feasible_bounds 50000 5000 (1/2) defaultSpending defaultSol
      hpos hrisk hfeas).2⟩

/-- C1 (code behavior at an infeasible instance): with
`min_savings = 20000 > income = 10000` and the default spending map, the
LP constraint set admits no feasible assignment (total spending would
have to be both at least `0.4 * income = 4000` and at most
`income - min_savings = -10000`), yet `optimize_budget` still returns a
full allocation mapping over all five categories — the source never
inspects the solve status, so no "no feasible allocation" outcome exists
distinct from "solved". -/
theorem optimize_budget_infeasible_unchecked :
    (¬ ∃ x : String → ℚ, Feasible 10000 20000 (1/2) defaultSpending x) ∧
    ((optimize_budget 10000 defaultSpending 20000 (1/2) (fun _ => 0)).map Prod.fst =
      ["Rent", "Food", "Transport", "Entertainment", "Shopping"]) := by
  constructor
  · rintro ⟨x, hbounds, hsum, hmin, hess⟩
    simp only [defaultSpending, List.map_cons, List.map_nil, List.sum_cons,
      List.sum_nil] at hsum hmin
    linarith
  · simp [optimize_budget, defaultSpending]

end AIvest
